import Mathlib

/-!
Verification of the `rust_web_server` snippet: a minimal Actix-web HTTP
server. The embedding models

* Rust's `u16::from_str` decimal parsing (optional leading `+`, ASCII
  digits, overflow checked against 65535), used by
  `env::var("PORT").unwrap_or_else(|_| "8080".to_string()).parse()`;
* the startup control flow of `main` as a function from the environment
  value of `PORT` and the outcome of the bind attempt to a final outcome
  together with the ordered list of observable events (logger
  initialization, bind attempt, standard-output line);
* the route table `App::new().route("/", web::get().to(index))` and the
  handler `index`, which returns `HttpResponse::Ok().body("Hello, world!")`.
-/

namespace RustWebServer

/-- Value of an ASCII decimal digit, `none` for any other character.
Mirrors the per-byte digit check of Rust's `from_str_radix` at radix 10. -/
def digitVal (c : Char) : Option Nat :=
  if c.isDigit then some (c.toNat - '0'.toNat) else none

/-- Fold of Rust's `from_str_radix` digit loop for `u16`: each step is
`checked_mul 10` then `checked_add d`, failing on any non-digit or once the
accumulated value exceeds `u16::MAX = 65535`. -/
def parseDigits : List Char → Nat → Option Nat
  | [], acc => some acc
  | c :: rest, acc =>
    match digitVal c with
    | none => none
    | some d =>
      let acc2 := acc * 10 + d
      if acc2 ≤ 65535 then parseDigits rest acc2 else none

/-- Rust's `str::parse::<u16>`: the empty string fails; a leading `+` is
consumed (but `"+"` alone fails); a leading `-` is not a sign for an
unsigned type and fails as a non-digit; the remaining characters must all
be ASCII digits and the value must fit in 16 bits. -/
def parse_u16 (s : String) : Option Nat :=
  match s.data with
  | [] => none
  | '+' :: rest => if rest.isEmpty then none else parseDigits rest 0
  | cs => parseDigits cs 0

/-- Lines 10-13 of `main`: the resolved port,
`env::var("PORT").unwrap_or_else(|_| "8080".to_string()).parse::<u16>()`.
`none` means the `expect` panics. -/
def resolvePort (envPort : Option String) : Option Nat :=
  parse_u16 (envPort.getD "8080")

/-- Observable events of a run of `main`, in program order. -/
inductive Event where
  | loggerInit : Event
  | bindAttempt : String → Nat → Event
  | stdout : String → Event
  deriving DecidableEq, Repr

/-- Terminal outcome of the startup path of `main`. -/
inductive StartOutcome where
  | panicked : String → StartOutcome
  | bindError : StartOutcome
  | running : Nat → StartOutcome
  deriving DecidableEq, Repr

/-- The line printed at line 27 of `main`:
`println!("Server running at http://0.0.0.0:{}", port)`. -/
def announceLine (port : Nat) : String :=
  "Server running at http://0.0.0.0:" ++ toString port

/-- The body of `main` (lines 10-28): parse the port (panicking on a bad
value before anything else happens), initialize the logger, attempt the
bind on `("0.0.0.0", port)` (propagating a failure via `?` as the
returned error), then print the announcement line and serve. `bindOk`
abstracts whether the operating system grants the requested socket. -/
def main_run (envPort : Option String) (bindOk : Nat → Bool) :
    StartOutcome × List Event :=
  match resolvePort envPort with
  | none => (StartOutcome.panicked "PORT must be a number", [])
  | some port =>
    if bindOk port then
      (StartOutcome.running port,
        [Event.loggerInit, Event.bindAttempt "0.0.0.0" port,
         Event.stdout (announceLine port)])
    else
      (StartOutcome.bindError, [Event.loggerInit, Event.bindAttempt "0.0.0.0" port])

/-- Whether an event is a bind attempt. -/
def isBindAttempt : Event → Bool
  | Event.bindAttempt _ _ => true
  | _ => false

/-- Whether an event is a line on standard output. -/
def isStdout : Event → Bool
  | Event.stdout _ => true
  | _ => false

/-- Whether an event is the logger initialization. -/
def isLoggerInit : Event → Bool
  | Event.loggerInit => true
  | _ => false

/-- An incoming HTTP request as the route table observes it. -/
structure HttpRequest where
  method : String
  path : String
  query : String
  headers : List (String × String)
  deriving DecidableEq, Repr

/-- An HTTP response: status code and body. -/
structure HttpResponse where
  status : Nat
  body : String
  deriving DecidableEq, Repr

/-- The handler `index` (lines 31-33): `HttpResponse::Ok().body("Hello, world!")`.
It takes no extractors, so it observes nothing of the request. -/
def index : HttpResponse :=
  { status := 200, body := "Hello, world!" }

/-- The route table of line 21, `App::new().route("/", web::get().to(index))`:
a request is dispatched to `index` exactly when its method is `GET` and
its path is `/`; any other request falls through to the framework default
(`none`). -/
def app_route (req : HttpRequest) : Option HttpResponse :=
  if req.method = "GET" ∧ req.path = "/" then some index else none

end RustWebServer

namespace RustWebServer

/-- C1: every request with method GET and path "/" is dispatched to `index`
and receives status 200 with exact body "Hello, world!", whatever its
headers or query string. -/
theorem c1_get_root_hello (req : HttpRequest)
    (hm : req.method = "GET") (hp : req.path = "/") :
    app_route req = some { status := 200, body := "Hello, world!" } := by
  simp [app_route, index, hm, hp]

/-- Witness for C1 at a concrete request carrying headers and a query
string. -/
theorem c1_get_root_hello_witness :
    app_route
        { method := "GET", path := "/", query := "a=1&b=2",
          headers := [("Accept", "text/html"), ("X-Test", "v")] } =
      some { status := 200, body := "Hello, world!" } :=
  c1_get_root_hello
    { method := "GET", path := "/", query := "a=1&b=2",
      headers := [("Accept", "text/html"), ("X-Test", "v")] } rfl rfl

/-- C2: when PORT is present but its value does not parse as an unsigned
16-bit integer, `main` panics with the configuration message and the event
trace is empty, so no socket bind is ever attempted. -/
theorem c2_bad_port_fatal (s : String) (bindOk : Nat → Bool)
    (h : parse_u16 s = none) :
    main_run (some s) bindOk =
      (StartOutcome.panicked "PORT must be a number", []) := by
  simp [main_run, resolvePort, h]

/-- Witness for C2 at the non-numeric value "not-a-number". -/
theorem c2_bad_port_fatal_witness :
    main_run (some "not-a-number") (fun _ => true) =
      (StartOutcome.panicked "PORT must be a number", []) :=
  c2_bad_port_fatal "not-a-number" (fun _ => true) (by decide)

/-- C3: when PORT is absent the resolved port is 8080 and the bind is
attempted on port 8080, whatever the bind outcome. -/
theorem c3_default_port_8080 (bindOk : Nat → Bool) :
    resolvePort none = some 8080 ∧
      Event.bindAttempt "0.0.0.0" 8080 ∈ (main_run none bindOk).2 := by
  have hres : resolvePort none = some 8080 := by decide
  refine ⟨hres, ?_⟩
  cases hb : bindOk 8080 <;> simp [main_run, hres, hb]

/-- Witness for C3 at a concrete bind oracle. -/
theorem c3_default_port_8080_witness :
    resolvePort none = some 8080 ∧
      Event.bindAttempt "0.0.0.0" 8080 ∈ (main_run none (fun _ => true)).2 :=
  c3_default_port_8080 (fun _ => true)

/-- C4: any PORT value that parses as an unsigned 16-bit integer resolves
to exactly that port, and the listener bind is attempted on address
0.0.0.0 at that port. -/
theorem c4_valid_port_binds (s : String) (p : Nat) (bindOk : Nat → Bool)
    (h : parse_u16 s = some p) :
    resolvePort (some s) = some p ∧
      Event.bindAttempt "0.0.0.0" p ∈ (main_run (some s) bindOk).2 := by
  have hres : resolvePort (some s) = some p := by simpa [resolvePort] using h
  refine ⟨hres, ?_⟩
  cases hb : bindOk p <;> simp [main_run, hres, hb]

/-- Witness for C4 at PORT = "9090". -/
theorem c4_valid_port_binds_witness :
    resolvePort (some "9090") = some 9090 ∧
      Event.bindAttempt "0.0.0.0" 9090 ∈
        (main_run (some "9090") (fun _ => true)).2 :=
  c4_valid_port_binds "9090" 9090 (fun _ => true) (by decide)

/-- C5: when the bind fails, `main` ends in the propagated bind error and
the trace holds exactly one bind attempt: the error is surfaced once and
no second bind is tried. -/
theorem c5_bind_error_no_retry (env : Option String) (bindOk : Nat → Bool)
    (port : Nat) (hres : resolvePort env = some port)
    (hb : bindOk port = false) :
    (main_run env bindOk).1 = StartOutcome.bindError ∧
      ((main_run env bindOk).2.filter isBindAttempt).length = 1 := by
  simp [main_run, hres, hb, isBindAttempt]

/-- Witness for C5: absent PORT and a bind oracle that always refuses. -/
theorem c5_bind_error_no_retry_witness :
    (main_run none (fun _ => false)).1 = StartOutcome.bindError ∧
      ((main_run none (fun _ => false)).2.filter isBindAttempt).length = 1 :=
  c5_bind_error_no_retry none (fun _ => false) 8080 (by decide) rfl

/-- C6: on a successful startup the trace holds exactly one
standard-output line, the announcement whose text ends with the resolved
port. -/
theorem c6_announce_once (env : Option String) (bindOk : Nat → Bool)
    (port : Nat) (hres : resolvePort env = some port)
    (hb : bindOk port = true) :
    ((main_run env bindOk).2.filter isStdout) =
        [Event.stdout (announceLine port)] ∧
      announceLine port = "Server running at http://0.0.0.0:" ++ toString port := by
  refine ⟨?_, rfl⟩
  simp [main_run, hres, hb, isStdout]

/-- Witness for C6: absent PORT and a bind oracle that always grants. -/
theorem c6_announce_once_witness :
    ((main_run none (fun _ => true)).2.filter isStdout) =
        [Event.stdout (announceLine 8080)] ∧
      announceLine 8080 = "Server running at http://0.0.0.0:" ++ toString 8080 :=
  c6_announce_once none (fun _ => true) 8080 (by decide) rfl

/-- C7: on a successful startup the logger is initialized exactly once,
and that initialization is the very first event, before the bind and the
announcement. -/
theorem c7_logger_init_once (env : Option String) (bindOk : Nat → Bool)
    (port : Nat) (hres : resolvePort env = some port)
    (hb : bindOk port = true) :
    ((main_run env bindOk).2.filter isLoggerInit).length = 1 ∧
      (main_run env bindOk).2.head? = some Event.loggerInit := by
  simp [main_run, hres, hb, isLoggerInit]

/-- Witness for C7: absent PORT and a bind oracle that always grants. -/
theorem c7_logger_init_once_witness :
    ((main_run none (fun _ => true)).2.filter isLoggerInit).length = 1 ∧
      (main_run none (fun _ => true)).2.head? = some Event.loggerInit :=
  c7_logger_init_once none (fun _ => true) 8080 (by decide) rfl

/-- C8: once the port is resolved it is never mutated: the whole trace is
one of the two program-order traces, and in both the bind attempt and any
announcement line use exactly the resolved port. -/
theorem c8_port_read_once (env : Option String) (bindOk : Nat → Bool)
    (port : Nat) (hres : resolvePort env = some port) :
    (main_run env bindOk).2 =
        [Event.loggerInit, Event.bindAttempt "0.0.0.0" port,
         Event.stdout (announceLine port)] ∨
      (main_run env bindOk).2 =
        [Event.loggerInit, Event.bindAttempt "0.0.0.0" port] := by
  cases hb : bindOk port
  · right; simp [main_run, hres, hb]
  · left; simp [main_run, hres, hb]

/-- Witness for C8 at PORT = "9090" with a granting bind oracle. -/
theorem c8_port_read_once_witness :
    (main_run (some "9090") (fun _ => true)).2 =
        [Event.loggerInit, Event.bindAttempt "0.0.0.0" 9090,
         Event.stdout (announceLine 9090)] ∨
      (main_run (some "9090") (fun _ => true)).2 =
        [Event.loggerInit, Event.bindAttempt "0.0.0.0" 9090] :=
  c8_port_read_once (some "9090") (fun _ => true) 9090 (by decide)

/-- C9: when the bind fails, standard output receives nothing: the
announcement line is only printed after a successful bind. -/
theorem c9_no_announce_on_bind_failure (env : Option String)
    (bindOk : Nat → Bool) (port : Nat)
    (hres : resolvePort env = some port) (hb : bindOk port = false) :
    ((main_run env bindOk).2.filter isStdout) = [] := by
  simp [main_run, hres, hb, isStdout]

/-- Witness for C9: absent PORT and a bind oracle that always refuses. -/
theorem c9_no_announce_on_bind_failure_witness :
    ((main_run none (fun _ => false)).2.filter isStdout) = [] :=
  c9_no_announce_on_bind_failure none (fun _ => false) 8080 (by decide) rfl

/-- C10: the root handler is a constant function: any two requests the
route dispatches receive equal responses, namely status 200 with body
"Hello, world!". -/
theorem c10_handler_constant (r1 r2 : HttpRequest) (a1 a2 : HttpResponse)
    (h1 : app_route r1 = some a1) (h2 : app_route r2 = some a2) :
    a1 = a2 ∧ a1 = { status := 200, body := "Hello, world!" } := by
  have key : ∀ r a, app_route r = some a → a = index := by
    intro r a h
    by_cases hc : r.method = "GET" ∧ r.path = "/"
    · simp [app_route, hc] at h
      exact h.symm
    · simp [app_route, hc] at h
  have e1 := key r1 a1 h1
  have e2 := key r2 a2 h2
  subst e1
  exact ⟨e2.symm, rfl⟩

/-- Witness for C10 at two distinct concrete requests. -/
theorem c10_handler_constant_witness :
    index = index ∧ index = { status := 200, body := "Hello, world!" } :=
  c10_handler_constant
    { method := "GET", path := "/", query := "", headers := [] }
    { method := "GET", path := "/", query := "x=y",
      headers := [("Cookie", "session=1")] }
    index index (by decide) (by decide)

/-- Sanity check of the parse embedding on the boundary and rejection
cases of Rust's `u16::from_str`: the 16-bit bound, a plus sign, a minus
sign on an unsigned type, the empty string and a bare sign. -/
theorem parse_u16_sanity :
    parse_u16 "65535" = some 65535 ∧ parse_u16 "65536" = none ∧
      parse_u16 "+9090" = some 9090 ∧ parse_u16 "-1" = none ∧
      parse_u16 "" = none ∧ parse_u16 "+" = none ∧
      parse_u16 "00042" = some 42 := by
  decide

end RustWebServer
